import Mathlib

/-!
Shallow embedding of `src/ai app/import openai.py` (class `PromptCraftAgent`).

Modelling conventions:
* JSON values produced by `json.loads` are the inductive `Json` (numeric
  literals are modelled as integers; no claim depends on numeric values).
* The remote completion API is an opaque oracle.  For the parse step the
  oracle is an `Except String Json`: `.error msg` covers both an exception
  raised by `openai.ChatCompletion.create` and a `json.JSONDecodeError`
  raised by `json.loads` on the reply (both land in the same `except` branch
  of `parse_input` with message `str(e)`); `.ok j` is a reply whose body
  decodes to the JSON value `j`.  For the generation step the oracle is an
  `Except String String` (error message, or the raw text reply).
* `str(datetime.now())` timestamps are opaque inputs: each operation takes
  the timestamp it would stamp on its (single) session-history append.
* Python mutation of `self.memory` becomes explicit state passing of
  `Memory`.  The one place aliasing matters is `_log_to_session
  ('memory_updated', self.memory)`, which stores a *reference* to the memory
  dict inside its own `session_history`; the stored datum is modelled by the
  dedicated constructor `LogData.memRef`, and `json.dumps(self.memory)`
  raises `ValueError: Circular reference detected` exactly when such an
  entry is present (every other stored datum - a `json.loads` result, a
  message string, a plan or output string - is an acyclic serialisable
  value).
-/

/-- JSON values as produced by Python's `json.loads`. -/
inductive Json where
  | null : Json
  | bool : Bool → Json
  | num : Int → Json
  | str : String → Json
  | arr : List Json → Json
  | obj : List (String × Json) → Json

/-- Datum stored in a session-history entry (`_log_to_session`'s `data`
argument).  `memRef` is the reference to `self.memory` stored by
`update_memory`'s `memory_updated` event. -/
inductive LogData where
  | json : Json → LogData
  | str : String → LogData
  | memRef : LogData

/-- One entry of `self.memory['session_history']`:
`{'type': ..., 'data': ..., 'timestamp': str(datetime.now())}`. -/
structure Event where
  type : String
  data : LogData
  timestamp : String

/-- The `self.memory['user_preferences']` dict.  `last_niches` and
`frequent_tones` receive `parsed_input['niche']` / `parsed_input['tone']`,
which are arbitrary JSON values; `recent_topics` only ever receives results
of `str.split`, hence strings. -/
structure UserPreferences where
  last_niches : List Json
  frequent_tones : List Json
  recent_topics : List String

/-- The `self.memory` dict. -/
structure Memory where
  user_preferences : UserPreferences
  session_history : List Event

/-- `self.memory` as set up by `__init__`: three empty preference lists and
an empty session history. -/
def init_memory : Memory :=
  { user_preferences := { last_niches := [], frequent_tones := [], recent_topics := [] },
    session_history := [] }

/-- `self.max_memory_items = 5`. -/
def max_memory_items : Nat := 5

/-- `_log_to_session(event_type, data)`: appends one entry to
`self.memory['session_history']`. -/
def log_to_session (event_type : String) (data : LogData) (ts : String) (m : Memory) : Memory :=
  { m with session_history := m.session_history ++ [⟨event_type, data, ts⟩] }

/-- Python `s.split(sep)` on character lists, for a nonempty separator:
non-overlapping leftmost matches, adjacent matches produce empty fields.
The `Nat` argument is structural fuel, instantiated with the length of the
string by `pySplit` (each step consumes at least one character, so the
`0, s => [s]` arm is never reached). -/
def pySplitAux (sep : List Char) : Nat → List Char → List (List Char)
  | _, [] => [[]]
  | 0, s => [s]
  | Nat.succ fuel, c :: rest =>
      if sep.isPrefixOf (c :: rest) then
        [] :: pySplitAux sep fuel (rest.drop (sep.length - 1))
      else
        match pySplitAux sep fuel rest with
        | [] => [[c]]
        | part :: parts => (c :: part) :: parts

/-- Python `s.split(sep)` for a nonempty separator string. -/
def pySplit (sep s : String) : List String :=
  (pySplitAux sep.toList s.toList.length s.toList).map (fun cs => String.mk cs)

/-- Python `key in j` for a string `key` and a `json.loads` value `j`:
key membership for a dict, element membership for a list, substring test for
a string (`key in s` holds exactly when splitting on `key` yields at least
two fields), and a `TypeError` (modelled as `.error` with `str(e)`) for
`None`, booleans and numbers. -/
def pyIn (key : String) : Json → Except String Bool
  | .null => .error "argument of type \x27NoneType\x27 is not iterable"
  | .bool _ => .error "argument of type \x27bool\x27 is not iterable"
  | .num _ => .error "argument of type \x27int\x27 is not iterable"
  | .str s => .ok ((pySplit key s).length ≥ 2)
  | .arr xs => .ok (xs.any (fun x => match x with | .str s => s == key | _ => false))
  | .obj kvs => .ok (kvs.any (fun kv => kv.1 == key))

/-- Python `j[key]` for a string `key`: dict lookup for a dict (dicts built
by `json.loads` have unique keys, so first-occurrence lookup agrees with
Python), a `TypeError` for a list or string, unreachable otherwise (only
evaluated after `key in j` succeeded). -/
def pyIndex (key : String) : Json → Except String Json
  | .obj kvs =>
      match kvs.lookup key with
      | some v => .ok v
      | none => .error ("KeyError: \x27" ++ key ++ "\x27")
  | .arr _ => .error "list indices must be integers or slices, not str"
  | .str _ => .error "string indices must be integers"
  | .null => .error "\x27NoneType\x27 object is not subscriptable"
  | .bool _ => .error "\x27bool\x27 object is not subscriptable"
  | .num _ => .error "\x27int\x27 object is not subscriptable"

/-- Python `kvs.get(key, default)` on a dict. -/
def pyGetD (kvs : List (String × Json)) (key : String) (default : Json) : Json :=
  (kvs.lookup key).getD default

/-- `parse_input(user_input)`.  On an `.ok` reply: logs `input_parsed` with
the parsed value and returns it.  On failure (API exception or
`json.JSONDecodeError`): logs `error` with `str(e)` and returns the
fallback dict `{"niche": "general", "tone": "neutral", "constraints": [],
"error": str(e)}`. -/
def parse_input (user_input : String) (reply : Except String Json) (ts : String)
    (m : Memory) : Json × Memory :=
  match reply with
  | .ok parsed => (parsed, log_to_session "input_parsed" (.json parsed) ts m)
  | .error e =>
      (Json.obj [("niche", .str "general"), ("tone", .str "neutral"),
                 ("constraints", .arr []), ("error", .str e)],
       log_to_session "error" (.str e) ts m)

/-- The `if 'niche' in parsed_input:` block of `update_memory`: push
`parsed_input['niche']` to the front of `last_niches`, truncated to
`max_memory_items`.  `.error` is a raised `TypeError` (the assignment's
right-hand side raises before any mutation). -/
def niche_step (parsed : Json) (m : Memory) : Except String Memory :=
  match pyIn "niche" parsed with
  | .error e => .error e
  | .ok false => .ok m
  | .ok true =>
      match pyIndex "niche" parsed with
      | .error e => .error e
      | .ok v =>
          .ok { m with user_preferences :=
                { m.user_preferences with
                  last_niches := (v :: m.user_preferences.last_niches).take max_memory_items } }

/-- The `if 'tone' in parsed_input:` block of `update_memory`. -/
def tone_step (parsed : Json) (m : Memory) : Except String Memory :=
  match pyIn "tone" parsed with
  | .error e => .error e
  | .ok false => .ok m
  | .ok true =>
      match pyIndex "tone" parsed with
      | .error e => .error e
      | .ok v =>
          .ok { m with user_preferences :=
                { m.user_preferences with
                  frequent_tones := (v :: m.user_preferences.frequent_tones).take max_memory_items } }

/-- `update_memory(parsed_input)`: the niche block, then the tone block,
then `_log_to_session('memory_updated', self.memory)` - storing the
reference to the memory dict itself - and return the memory.  A raised
`TypeError` is caught: the `except` branch logs `error` with `str(e)` and
returns the memory as mutated so far (an exception raises on an
assignment's right-hand side, before the assignment, so no partial update
is lost). -/
def update_memory (parsed : Json) (ts : String) (m : Memory) : Memory :=
  match niche_step parsed m with
  | .error e => log_to_session "error" (.str e) ts m
  | .ok m1 =>
      match tone_step parsed m1 with
      | .error e => log_to_session "error" (.str e) ts m1
      | .ok m2 => log_to_session "memory_updated" .memRef ts m2

/-- Quote character chosen by Python's `repr` for a string: double quotes
when the string contains a single quote and no double quote, single quotes
otherwise. -/
def pyQuoteChar (s : String) : Char :=
  if s.contains (Char.ofNat 39) && !s.contains (Char.ofNat 34) then Char.ofNat 34
  else Char.ofNat 39

/-- Escaping of one character inside a Python string `repr` with quote
character `q` (backslash, the quote character, and the common control
characters; other characters pass through). -/
def pyEscapeChar (q c : Char) : String :=
  if c = Char.ofNat 92 then String.singleton (Char.ofNat 92) ++ String.singleton (Char.ofNat 92)
  else if c = q then String.singleton (Char.ofNat 92) ++ String.singleton q
  else if c = Char.ofNat 10 then String.singleton (Char.ofNat 92) ++ "n"
  else if c = Char.ofNat 13 then String.singleton (Char.ofNat 92) ++ "r"
  else if c = Char.ofNat 9 then String.singleton (Char.ofNat 92) ++ "t"
  else String.singleton c

/-- Python `repr` of a string. -/
def pyQuoteStr (s : String) : String :=
  let q := pyQuoteChar s
  String.singleton q ++ String.join (s.toList.map (pyEscapeChar q)) ++ String.singleton q

mutual
/-- Python `repr` of a `json.loads` value. -/
def pyRepr : Json → String
  | .null => "None"
  | .bool true => "True"
  | .bool false => "False"
  | .num n => toString n
  | .str s => pyQuoteStr s
  | .arr xs => "[" ++ pyReprArr xs ++ "]"
  | .obj kvs => "\x7b" ++ pyReprObj kvs ++ "\x7d"

/-- Comma-separated `repr`s of a list's elements. -/
def pyReprArr : List Json → String
  | [] => ""
  | [x] => pyRepr x
  | x :: xs => pyRepr x ++ ", " ++ pyReprArr xs

/-- Comma-separated `repr`s of a dict's key-value pairs. -/
def pyReprObj : List (String × Json) → String
  | [] => ""
  | [kv] => pyQuoteStr kv.1 ++ ": " ++ pyRepr kv.2
  | kv :: kvs => pyQuoteStr kv.1 ++ ": " ++ pyRepr kv.2 ++ ", " ++ pyReprObj kvs
end

/-- Python `str` of a `json.loads` value (what `str.format` interpolates):
the string itself at top level, `repr` otherwise. -/
def pyStr : Json → String
  | .str s => s
  | j => pyRepr j

/-- Python `str` of a list of strings, e.g. `str(['a', 'b'])`:
`repr` of each element, comma-separated, in brackets. -/
def pyStrOfStrList (xs : List String) : String :=
  "[" ++ String.intercalate ", " (xs.map pyQuoteStr) ++ "]"

/-- The `plan_template.format(...)` call of `plan_prompts`, with the
template's literal segments spelled out (the source template is a
triple-quoted string whose continuation lines are indented by 12 spaces)
and each argument interpolated via `str`. -/
def plan_template_render (niche tone : Json) (recent_topics : List String)
    (constraints audience : Json) : String :=
  "Generate writing prompts by:\n            1. Combining " ++ pyStr niche ++
  " niche with " ++ pyStr tone ++
  " tone\n            2. Avoiding recent topics: " ++ pyStrOfStrList recent_topics ++
  "\n            3. Considering these constraints: " ++ pyStr constraints ++
  "\n            4. Targeting " ++ pyStr audience ++ " audience if specified"

/-- The `AttributeError` message raised by `parsed_input.get(...)` when
`parsed_input` is not a dict. -/
def pyNoGetAttrMsg : Json → String
  | .null => "\x27NoneType\x27 object has no attribute \x27get\x27"
  | .bool _ => "\x27bool\x27 object has no attribute \x27get\x27"
  | .num _ => "\x27int\x27 object has no attribute \x27get\x27"
  | .str _ => "\x27str\x27 object has no attribute \x27get\x27"
  | .arr _ => "\x27list\x27 object has no attribute \x27get\x27"
  | .obj _ => ""

/-- `plan_prompts(parsed_input)`: purely local (no API call).  For a dict,
renders the template with defaults `'general'`, `'neutral'`, `'none'`,
`'general'` and the first 3 recent topics, logs `plan_created` and returns
the plan.  For a non-dict, the first `parsed_input.get(...)` raises
`AttributeError` before anything else is evaluated; the `except` branch
logs `error` and returns the constant fallback string. -/
def plan_prompts (parsed : Json) (ts : String) (m : Memory) : String × Memory :=
  match parsed with
  | .obj kvs =>
      let plan := plan_template_render
        (pyGetD kvs "niche" (.str "general"))
        (pyGetD kvs "tone" (.str "neutral"))
        (m.user_preferences.recent_topics.take 3)
        (pyGetD kvs "constraints" (.str "none"))
        (pyGetD kvs "audience" (.str "general"))
      (plan, log_to_session "plan_created" (.str plan) ts m)
  | j => ("Generate diverse writing prompts",
          log_to_session "error" (.str (pyNoGetAttrMsg j)) ts m)

/-- `_update_topic_memory(output)`.  Python's `if '**' in output:` holds
exactly when `output.split('**')` has at least two fields; then
`output.split('**')[1].split('**')[0]` is that second field (split fields
contain no occurrence of the separator, so the inner split is the
identity).  The extracted topic is pushed to the front of `recent_topics`,
truncated to `max_memory_items`; otherwise the memory is untouched.  The
body cannot raise, so the bare `except: pass` is dead; nothing is ever
logged. -/
def update_topic_memory (output : String) (m : Memory) : Memory :=
  match pySplit "**" output with
  | _ :: main_topic :: _ =>
      { m with user_preferences :=
        { m.user_preferences with
          recent_topics := (main_topic :: m.user_preferences.recent_topics).take max_memory_items } }
  | _ => m

/-- `generate_output(plan)`.  On an `.ok` reply with text `output`:
`_update_topic_memory(output)`, then log `output_generated` with the full
text, then return it.  On an API exception: log `error` with `str(e)` and
return the constant error string (in this path `recent_topics` is never
touched). -/
def generate_output (plan : String) (reply : Except String String) (ts : String)
    (m : Memory) : String × Memory :=
  match reply with
  | .ok output =>
      (output, log_to_session "output_generated" (.str output) ts (update_topic_memory output m))
  | .error e =>
      ("**Error generating prompts**\nPlease try again later.",
       log_to_session "error" (.str e) ts m)

/-- Whether `json.dumps(self.memory, indent=2)` raises.  The memory dict is
serialisable except when its `session_history` holds a reference back to
the memory dict itself (a `memory_updated` entry stores exactly that), in
which case `json.dumps` raises `ValueError: Circular reference detected`;
every other stored datum (`json.loads` values, message/plan/output strings)
is acyclic and serialisable. -/
def json_dumps_memory_raises (m : Memory) : Bool :=
  m.session_history.any (fun e => match e.data with | .memRef => true | _ => false)

/-- `run_agent(user_input)`: parse → print `json.dumps(parsed_input)`
(never raises: a `json.loads` result and the fallback dict are both
serialisable) → update memory → print `json.dumps(self.memory)` (raises
when the memory is circular; the `ValueError` is uncaught and propagates
out of `run_agent`) → plan → generate → return the output.  `.ok` carries
the returned string and the final memory; `.error` carries the uncaught
exception's message and the memory state left behind on the agent. -/
def run_agent (user_input : String) (parse_reply : Except String Json)
    (gen_reply : Except String String) (tsA tsB tsC tsD : String)
    (m : Memory) : Except (String × Memory) (String × Memory) :=
  let pr := parse_input user_input parse_reply tsA m
  let m2 := update_memory pr.1 tsB pr.2
  if json_dumps_memory_raises m2 then
    .error ("ValueError: Circular reference detected", m2)
  else
    let pl := plan_prompts pr.1 tsC m2
    let go := generate_output pl.1 gen_reply tsD pl.2
    .ok go

/-- C3: if the completion API raises during the parse step, `parse_input`
returns the dictionary `{niche: "general", tone: "neutral", constraints: [],
error: <exception message>}` and appends a session-history entry of type
`"error"` carrying the message before returning. -/
theorem parse_input_failure_fallback (user_input e ts : String) (m : Memory) :
    parse_input user_input (.error e) ts m =
      (Json.obj [("niche", .str "general"), ("tone", .str "neutral"),
                 ("constraints", .arr []), ("error", .str e)],
       { m with session_history := m.session_history ++ [⟨"error", .str e, ts⟩] }) := rfl

/-- C4: if the generation call fails, `generate_output` returns exactly the
string `"**Error generating prompts**\nPlease try again later."`, logs an
`error` event carrying the exception message, and leaves the memory's
`recent_topics` (indeed all of `user_preferences`) unchanged. -/
theorem generate_output_failure_constant (plan e ts : String) (m : Memory) :
    generate_output plan (.error e) ts m =
      ("**Error generating prompts**\nPlease try again later.",
       { m with session_history := m.session_history ++ [⟨"error", .str e, ts⟩] }) ∧
    (generate_output plan (.error e) ts m).2.user_preferences.recent_topics
      = m.user_preferences.recent_topics := ⟨rfl, rfl⟩

/-- C6: starting from the empty memory, six successive `update_memory`
calls with niches food, tech, art, space, law, music leave `last_niches`
equal to `["music", "law", "space", "art", "tech"]`: newest first, oldest
evicted at the cap of 5. -/
theorem six_niche_pushes :
    ((update_memory (Json.obj [("niche", Json.str "music")]) "t6"
      (update_memory (Json.obj [("niche", Json.str "law")]) "t5"
      (update_memory (Json.obj [("niche", Json.str "space")]) "t4"
      (update_memory (Json.obj [("niche", Json.str "art")]) "t3"
      (update_memory (Json.obj [("niche", Json.str "tech")]) "t2"
      (update_memory (Json.obj [("niche", Json.str "food")]) "t1"
        init_memory))))))).user_preferences.last_niches
    = [Json.str "music", Json.str "law", Json.str "space", Json.str "art", Json.str "tech"] := rfl

/-- C10: when the parse step fails, the fallback dict still carries
`niche = "general"` and `tone = "neutral"`, so the subsequent
`update_memory` pushes `"general"` onto the front of `last_niches` and
`"neutral"` onto the front of `frequent_tones`: a failed parse still
mutates the preference memory rather than leaving it unchanged. -/
theorem failed_parse_still_updates_memory (user_input e tsA tsB : String) (m : Memory) :
    (update_memory (parse_input user_input (.error e) tsA m).1 tsB
        (parse_input user_input (.error e) tsA m).2).user_preferences.last_niches
      = (Json.str "general" :: m.user_preferences.last_niches).take max_memory_items ∧
    (update_memory (parse_input user_input (.error e) tsA m).1 tsB
        (parse_input user_input (.error e) tsA m).2).user_preferences.frequent_tones
      = (Json.str "neutral" :: m.user_preferences.frequent_tones).take max_memory_items :=
  ⟨rfl, rfl⟩

/-- C1 (code bug): `run_agent` does not always return a string.  Even with
the agent constructed, on a parse-stage API failure the fallback dict is
pushed into memory, `update_memory` logs the `memory_updated` event whose
datum is the memory dict itself, and `run_agent`'s diagnostic
`json.dumps(self.memory, indent=2)` then raises an uncaught
`ValueError: Circular reference detected`, after only two session events. -/
theorem run_agent_raises_valueerror :
    ∃ m2 : Memory,
      run_agent "hello" (.error "boom") (.ok "fine output") "t1" "t2" "t3" "t4" init_memory
        = .error ("ValueError: Circular reference detected", m2) ∧
      m2.session_history.map Event.type = ["error", "memory_updated"] := ⟨_, rfl, rfl⟩

/-- C5 (code bug): a run in which every stage would succeed never reaches
the plan and generate stages: after `parse_input` and `update_memory` have
appended their two events (`input_parsed`, `memory_updated`), the
`memory_updated` entry makes the memory dict self-referential and
`run_agent`'s `json.dumps(self.memory, indent=2)` raises, so session
history never receives the four claimed events. -/
theorem run_agent_crashes_before_four_events :
    ∃ m2 : Memory,
      run_agent "Serious tech prompt about AI ethics for professionals"
        (.ok (Json.obj [("niche", Json.str "tech"), ("tone", Json.str "serious"),
                        ("constraints", Json.arr [])]))
        (.ok "**AI Ethics** prompt text") "t1" "t2" "t3" "t4" init_memory
        = .error ("ValueError: Circular reference detected", m2) ∧
      m2.session_history.map Event.type = ["input_parsed", "memory_updated"] := ⟨_, rfl, rfl⟩

/-- Helper: a key that `List.lookup` misses is matched by no pair in the
association list. -/
theorem lookup_none_any_eq_false (k : String) (kvs : List (String × Json))
    (h : kvs.lookup k = none) : kvs.any (fun kv => kv.1 == k) = false := by
  induction kvs with
  | nil => rfl
  | cons kv t ih =>
      obtain ⟨a, b⟩ := kv
      rw [List.lookup] at h
      by_cases hk : k = a
      · subst hk; simp at h
      · have hne : (k == a) = false := by simpa using hk
        rw [hne] at h
        have hne2 : (a == k) = false := by simpa using (fun he => hk he.symm)
        simp only [List.any, hne2, Bool.false_or]
        exact ih h

/-- Helper: a key matched by some pair of the association list is found by
`List.lookup`. -/
theorem any_eq_true_lookup_isSome (k : String) (kvs : List (String × Json))
    (h : kvs.any (fun kv => kv.1 == k) = true) : ∃ v, kvs.lookup k = some v := by
  induction kvs with
  | nil => simp at h
  | cons kv t ih =>
      obtain ⟨a, b⟩ := kv
      rw [List.lookup]
      by_cases hk : k = a
      · subst hk; simp
      · have hne : (k == a) = false := by simpa using hk
        rw [hne]
        have hne2 : (a == k) = false := by simpa using (fun he => hk he.symm)
        simp only [List.any, hne2, Bool.false_or] at h
        exact ih h

/-- Helper: on a dict, the niche block always succeeds, and it only ever
touches `last_niches`. -/
theorem niche_step_obj (kvs : List (String × Json)) (m : Memory) :
    ∃ m1, niche_step (Json.obj kvs) m = .ok m1 ∧
      m1.user_preferences.frequent_tones = m.user_preferences.frequent_tones ∧
      m1.user_preferences.recent_topics = m.user_preferences.recent_topics ∧
      m1.session_history = m.session_history := by
  unfold niche_step
  cases hany : kvs.any (fun kv => kv.1 == "niche") with
  | false => exact ⟨m, by simp [pyIn, hany], rfl, rfl, rfl⟩
  | true =>
      obtain ⟨v, hv⟩ := any_eq_true_lookup_isSome "niche" kvs hany
      refine ⟨{ m with user_preferences :=
        { m.user_preferences with
          last_niches := (v :: m.user_preferences.last_niches).take max_memory_items } },
        ?_, rfl, rfl, rfl⟩
      simp [pyIn, hany, pyIndex, hv]

/-- C8: for every parsed dict with no `"tone"` key, `update_memory` leaves
`frequent_tones` unchanged and raises nothing: the success-path
`memory_updated` event (not an `error` event) is the one session append. -/
theorem update_memory_absent_tone (kvs : List (String × Json)) (ts : String) (m : Memory)
    (h : kvs.lookup "tone" = none) :
    (update_memory (Json.obj kvs) ts m).user_preferences.frequent_tones
      = m.user_preferences.frequent_tones ∧
    (update_memory (Json.obj kvs) ts m).session_history
      = m.session_history ++ [⟨"memory_updated", .memRef, ts⟩] := by
  obtain ⟨m1, hn, hf, _, hs⟩ := niche_step_obj kvs m
  have htone : tone_step (Json.obj kvs) m1 = .ok m1 := by
    unfold tone_step
    simp [pyIn, lookup_none_any_eq_false "tone" kvs h]
  unfold update_memory
  simp only [hn, htone]
  exact ⟨hf, by simp [log_to_session, hs]⟩

/-- C8 witness: a concrete parsed dict without a `"tone"` key. -/
theorem update_memory_absent_tone_witness :
    (update_memory (Json.obj [("niche", Json.str "food")]) "t" init_memory).user_preferences.frequent_tones
      = init_memory.user_preferences.frequent_tones ∧
    (update_memory (Json.obj [("niche", Json.str "food")]) "t" init_memory).session_history
      = init_memory.session_history ++ [⟨"memory_updated", .memRef, "t"⟩] :=
  update_memory_absent_tone [("niche", Json.str "food")] "t" init_memory rfl

/-- C7 counterexample: the claim says the extractor extracts nothing - and
leaves memory unchanged - when no *pair* of double-asterisk markers exists,
i.e. when splitting on the marker yields at most two fields (at most one
occurrence).  On `"abc**def"` (a single occurrence, hence no pair) the code
still pushes `"def"` onto `recent_topics`. -/
theorem update_topic_memory_no_pair_claim_false :
    ¬ (∀ (output : String) (m : Memory),
        (pySplit "**" output).length ≤ 2 → update_topic_memory output m = m) := by
  intro hclaim
  have h := hclaim "abc**def" init_memory (by decide)
  have h2 : (["def"] : List String) = [] :=
    congrArg (fun mm => mm.user_preferences.recent_topics) h
  exact List.noConfusion h2

/-- C7 (amended): the extractor takes the second field of splitting the
output on `"**"`: with no occurrence of the marker the memory is unchanged
(and nothing is logged); with at least one occurrence the second field -
the span between the first two markers when a pair exists, everything after
the marker otherwise - is pushed onto the front of `recent_topics`,
truncated to `max_memory_items`, and nothing else changes.  Extraction
failure surfaces no error and appends no session event. -/
theorem update_topic_memory_amended (output : String) (m : Memory) :
    ((pySplit "**" output).length ≤ 1 → update_topic_memory output m = m) ∧
    (∀ t rest a, pySplit "**" output = a :: t :: rest →
        update_topic_memory output m =
          { m with user_preferences :=
            { m.user_preferences with
              recent_topics := (t :: m.user_preferences.recent_topics).take max_memory_items } }) := by
  constructor
  · intro hlen
    rcases hsp : pySplit "**" output with _ | ⟨a, _ | ⟨t, rest⟩⟩
    · simp [update_topic_memory, hsp]
    · simp [update_topic_memory, hsp]
    · rw [hsp] at hlen; simp at hlen
  · intro t rest a hsp
    simp [update_topic_memory, hsp]

/-- C7 witness: on `"a**b**c"` the amended characterisation pushes `"b"`,
the span between the first pair of markers. -/
theorem update_topic_memory_amended_witness :
    update_topic_memory "a**b**c" init_memory =
      { init_memory with user_preferences :=
        { init_memory.user_preferences with
          recent_topics :=
            ("b" :: init_memory.user_preferences.recent_topics).take max_memory_items } } :=
  (update_topic_memory_amended "a**b**c" init_memory).2 "b" ["c"] "a" rfl

/-- C9: with no `"constraints"` key and no `"audience"` key, the plan
string renders the literal `"none"` in the constraints slot and
`"general"` in the audience slot of the template; `plan_prompts` is a pure
function of the parsed dict, the timestamp and the memory - it takes no
completion-API reply, so it makes no network call. -/
theorem plan_prompts_default_slots (kvs : List (String × Json)) (ts : String) (m : Memory)
    (hc : kvs.lookup "constraints" = none) (ha : kvs.lookup "audience" = none) :
    ∃ front : String,
      (plan_prompts (Json.obj kvs) ts m).1 =
        front ++ "none" ++ "\n            4. Targeting " ++ "general" ++
          " audience if specified" := by
  refine ⟨"Generate writing prompts by:\n            1. Combining " ++
      pyStr (pyGetD kvs "niche" (Json.str "general")) ++ " niche with " ++
      pyStr (pyGetD kvs "tone" (Json.str "neutral")) ++
      " tone\n            2. Avoiding recent topics: " ++
      pyStrOfStrList (m.user_preferences.recent_topics.take 3) ++
      "\n            3. Considering these constraints: ", ?_⟩
  show plan_template_render (pyGetD kvs "niche" (Json.str "general"))
      (pyGetD kvs "tone" (Json.str "neutral"))
      (m.user_preferences.recent_topics.take 3)
      (pyGetD kvs "constraints" (Json.str "none"))
      (pyGetD kvs "audience" (Json.str "general")) = _
  simp only [pyGetD, hc, ha, Option.getD_none]
  rfl

/-- C9 witness: the empty parsed dict has neither key. -/
theorem plan_prompts_default_slots_witness :
    ∃ front : String,
      (plan_prompts (Json.obj []) "t" init_memory).1 =
        front ++ "none" ++ "\n            4. Targeting " ++ "general" ++
          " audience if specified" :=
  plan_prompts_default_slots [] "t" init_memory rfl rfl

/-- One agent operation, with the oracle inputs (API reply, timestamp) it
consumes: a `parse_input`, `update_memory`, `plan_prompts` or
`generate_output` call. -/
inductive AgentOp where
  | parse (user_input : String) (reply : Except String Json) (ts : String)
  | update (parsed : Json) (ts : String)
  | plan (parsed : Json) (ts : String)
  | generate (plan : String) (reply : Except String String) (ts : String)

/-- The memory left behind by one operation. -/
def apply_op (op : AgentOp) (m : Memory) : Memory :=
  match op with
  | .parse user_input reply ts => (parse_input user_input reply ts m).2
  | .update parsed ts => update_memory parsed ts m
  | .plan parsed ts => (plan_prompts parsed ts m).2
  | .generate plan reply ts => (generate_output plan reply ts m).2

/-- The memory after a sequence of operations. -/
def run_ops (ops : List AgentOp) (m : Memory) : Memory :=
  match ops with
  | [] => m
  | op :: rest => run_ops rest (apply_op op m)

/-- The bounded-recency invariant: each of the three preference lists has
length at most `max_memory_items` (5). -/
def bounded_memory (m : Memory) : Prop :=
  m.user_preferences.last_niches.length ≤ max_memory_items ∧
  m.user_preferences.frequent_tones.length ≤ max_memory_items ∧
  m.user_preferences.recent_topics.length ≤ max_memory_items

/-- Helper: a successful niche block leaves the memory unchanged or
replaces `last_niches` by a pushed-and-truncated list. -/
theorem niche_step_ok_shape (p : Json) (m m1 : Memory) (h : niche_step p m = .ok m1) :
    m1 = m ∨ ∃ v, m1 = { m with user_preferences :=
      { m.user_preferences with
        last_niches := (v :: m.user_preferences.last_niches).take max_memory_items } } := by
  unfold niche_step at h
  cases hp : pyIn "niche" p with
  | error e => rw [hp] at h; cases h
  | ok b =>
      rw [hp] at h
      cases b with
      | false => cases h; exact Or.inl rfl
      | true =>
          cases hi : pyIndex "niche" p with
          | error e => rw [hi] at h; cases h
          | ok v => rw [hi] at h; cases h; exact Or.inr ⟨v, rfl⟩

/-- Helper: a successful tone block leaves the memory unchanged or
replaces `frequent_tones` by a pushed-and-truncated list. -/
theorem tone_step_ok_shape (p : Json) (m m1 : Memory) (h : tone_step p m = .ok m1) :
    m1 = m ∨ ∃ v, m1 = { m with user_preferences :=
      { m.user_preferences with
        frequent_tones := (v :: m.user_preferences.frequent_tones).take max_memory_items } } := by
  unfold tone_step at h
  cases hp : pyIn "tone" p with
  | error e => rw [hp] at h; cases h
  | ok b =>
      rw [hp] at h
      cases b with
      | false => cases h; exact Or.inl rfl
      | true =>
          cases hi : pyIndex "tone" p with
          | error e => rw [hi] at h; cases h
          | ok v => rw [hi] at h; cases h; exact Or.inr ⟨v, rfl⟩

/-- Helper: a pushed-and-truncated list respects the cap. -/
theorem take_max_length_le (v : Json) (l : List Json) :
    ((v :: l).take max_memory_items).length ≤ max_memory_items := by
  simp [List.length_take]

/-- Helper: `update_memory` preserves the bounded-recency invariant. -/
theorem update_memory_bounded (p : Json) (ts : String) (m : Memory)
    (h : bounded_memory m) : bounded_memory (update_memory p ts m) := by
  obtain ⟨h1, h2, h3⟩ := h
  cases hn : niche_step p m with
  | error e =>
      unfold update_memory
      simp only [hn, log_to_session]
      exact ⟨h1, h2, h3⟩
  | ok m1 =>
      have hb1 : bounded_memory m1 := by
        rcases niche_step_ok_shape p m m1 hn with rfl | ⟨v, rfl⟩
        · exact ⟨h1, h2, h3⟩
        · exact ⟨take_max_length_le v _, h2, h3⟩
      obtain ⟨g1, g2, g3⟩ := hb1
      cases ht : tone_step p m1 with
      | error e =>
          unfold update_memory
          simp only [hn, ht, log_to_session]
          exact ⟨g1, g2, g3⟩
      | ok m2 =>
          have hb2 : bounded_memory m2 := by
            rcases tone_step_ok_shape p m1 m2 ht with rfl | ⟨v, rfl⟩
            · exact ⟨g1, g2, g3⟩
            · exact ⟨g1, take_max_length_le v _, g3⟩
          unfold update_memory
          simp only [hn, ht, log_to_session]
          exact ⟨hb2.1, hb2.2.1, hb2.2.2⟩

/-- Helper: `update_topic_memory` preserves the bounded-recency
invariant. -/
theorem update_topic_memory_bounded (output : String) (m : Memory)
    (h : bounded_memory m) : bounded_memory (update_topic_memory output m) := by
  obtain ⟨h1, h2, h3⟩ := h
  unfold update_topic_memory
  rcases pySplit "**" output with _ | ⟨a, _ | ⟨t, rest⟩⟩
  · exact ⟨h1, h2, h3⟩
  · exact ⟨h1, h2, h3⟩
  · exact ⟨h1, h2, by simp [List.length_take]⟩

/-- Helper: every agent operation preserves the bounded-recency
invariant. -/
theorem apply_op_bounded (op : AgentOp) (m : Memory) (h : bounded_memory m) :
    bounded_memory (apply_op op m) := by
  obtain ⟨h1, h2, h3⟩ := h
  cases op with
  | parse user_input reply ts =>
      cases reply <;> exact ⟨h1, h2, h3⟩
  | update parsed ts => exact update_memory_bounded parsed ts m ⟨h1, h2, h3⟩
  | plan parsed ts =>
      cases parsed <;> exact ⟨h1, h2, h3⟩
  | generate plan reply ts =>
      cases reply with
      | error e => exact ⟨h1, h2, h3⟩
      | ok output =>
          have := update_topic_memory_bounded output m ⟨h1, h2, h3⟩
          exact ⟨this.1, this.2.1, this.2.2⟩

/-- Helper: the invariant propagates along any operation sequence. -/
theorem run_ops_bounded (ops : List AgentOp) (m : Memory) (h : bounded_memory m) :
    bounded_memory (run_ops ops m) := by
  induction ops generalizing m with
  | nil => exact h
  | cons op rest ih => exact ih (apply_op op m) (apply_op_bounded op m h)

/-- C2: after any sequence of parse/update/plan/generate operations from
the initial memory, each of the three bounded lists `last_niches`,
`frequent_tones` and `recent_topics` has length at most 5. -/
theorem memory_lists_bounded (ops : List AgentOp) :
    bounded_memory (run_ops ops init_memory) :=
  run_ops_bounded ops init_memory ⟨Nat.zero_le _, Nat.zero_le _, Nat.zero_le _⟩
